import Mathlib

/-!
Verification of the PFT workflow orchestrator
(`server/utils/orchestrator.py`) against its natural-language
specification.

The orchestrator is embedded shallowly:

* Python dicts holding collaborator payloads become flat association
  lists `Payload := List (String × String)`; `d.get(k, default)` on a
  payload becomes `Payload.get`, whose default is the empty string.
* `datetime.now()` becomes an explicit clock: every operation that reads
  the wall clock takes a `now : Nat` argument (seconds); awaiting a
  collaborator advances the clock by the time the bounded wait took.
* The five analysis agents, the redis broadcast/persist client and the
  optional progress callback are external collaborators: an `Env` record
  gives, for each of them, the outcome the external world would produce
  (a duration and a result for a collaborator call; success or a raised
  exception message for a gateway call).
* `asyncio.wait_for(call, timeout)` becomes `wait_outcome` /
  `wait_elapsed`: the call times out exactly when its duration exceeds
  the bound, in which case the wait consumes `timeout` seconds.
* Every observable external action (publish, persist, callback
  invocation, collaborator invocation) is recorded in an event trace, in
  program order; every `update_stage` / `set_error` call appends the
  resulting status snapshot to a transition history.
-/

namespace AutoPFT

/-- Collaborator payloads (Python `Dict[str, Any]`) are modelled as flat
association lists from string keys to string values. -/
abbrev Payload := List (String × String)

/-- Python `d.get(k, default)` with the empty string standing for the
empty default payload. -/
def Payload.get (d : Payload) (k : String) : String :=
  (List.lookup k d).getD ""

/-- Python `d[k] = v` on an association list: replace the first binding
of `k`, or append a new one (insertion order preserved, as for dicts). -/
def dictSet (d : List (String × Payload)) (k : String) (v : Payload) :
    List (String × Payload) :=
  match d with
  | [] => [(k, v)]
  | (k1, v1) :: rest =>
      if k1 = k then (k, v) :: rest else (k1, v1) :: dictSet rest k v

/-- `ProcessingStage` enum from orchestrator.py. -/
inductive ProcessingStage where
  | queued
  | data_extraction
  | interpretation
  | triage_assessment
  | report_generation
  | quality_validation
  | completed
  | failed
deriving DecidableEq, Repr

/-- The `.value` of each enum member. -/
def ProcessingStage.value : ProcessingStage → String
  | .queued => "queued"
  | .data_extraction => "data_extraction"
  | .interpretation => "interpretation"
  | .triage_assessment => "triage_assessment"
  | .report_generation => "report_generation"
  | .quality_validation => "quality_validation"
  | .completed => "completed"
  | .failed => "failed"

/-- `WorkflowStatus` from orchestrator.py.  `stage_results` is the dict
mapping stage names to raw step results; timestamps are clock readings. -/
structure WorkflowStatus where
  request_id : String
  stage : ProcessingStage
  progress : Nat
  current_step : String
  started_at : Nat
  completed_at : Option Nat
  error_message : Option String
  stage_results : List (String × Payload)
  processing_time : Nat
deriving DecidableEq, Repr

/-- `WorkflowStatus.__init__`: created at admission time `now`. -/
def WorkflowStatus.init (request_id : String) (now : Nat) : WorkflowStatus :=
  { request_id := request_id
    stage := .queued
    progress := 0
    current_step := "Queued for processing"
    started_at := now
    completed_at := none
    error_message := none
    stage_results := []
    processing_time := 0 }

/-- `WorkflowStatus.update_stage`: sets stage, progress and description;
when the new stage is COMPLETED it also stamps `completed_at` and
computes the processing time. -/
def WorkflowStatus.update_stage (s : WorkflowStatus) (stage : ProcessingStage)
    (progress : Nat) (step_description : String) (now : Nat) : WorkflowStatus :=
  let s1 := { s with stage := stage, progress := progress,
                     current_step := step_description }
  if stage = .completed then
    { s1 with completed_at := some now, processing_time := now - s1.started_at }
  else s1

/-- `WorkflowStatus.set_error`: unconditionally moves to FAILED, records
the message and stamps `completed_at` / `processing_time`. -/
def WorkflowStatus.set_error (s : WorkflowStatus) (error_message : String)
    (now : Nat) : WorkflowStatus :=
  { s with stage := .failed
           error_message := some error_message
           completed_at := some now
           processing_time := now - s.started_at }

/-- The dictionary produced by `WorkflowStatus.to_dict` (the published /
persisted status snapshot); `stage` is serialized through `.value`. -/
structure StatusDict where
  request_id : String
  stage : String
  progress : Nat
  current_step : String
  started_at : Nat
  completed_at : Option Nat
  processing_time : Nat
  error_message : Option String
deriving DecidableEq, Repr

/-- `WorkflowStatus.to_dict`. -/
def WorkflowStatus.to_dict (s : WorkflowStatus) : StatusDict :=
  { request_id := s.request_id
    stage := s.stage.value
    progress := s.progress
    current_step := s.current_step
    started_at := s.started_at
    completed_at := s.completed_at
    processing_time := s.processing_time
    error_message := s.error_message }

/-- The `workflow_data` dict threaded through the stages (spec:
WorkflowContext): request inputs plus the five intermediate slots. -/
structure WorkflowContext where
  request_id : String
  file_content : String
  file_type : String
  patient_demographics : Payload
  historical_data : List Payload
  priority : String
  extracted_data : Payload
  interpretation : Payload
  triage_assessment : Payload
  report_data : Payload
  quality_assessment : Payload
deriving DecidableEq, Repr

/-- One entry of `self.workflow_steps` (spec: StageDescriptor): stage,
progress weight, human description and timeout in seconds.  The bound
agent/method pair is represented by the stage itself, since the `Env`
resolves a collaborator behaviour per stage. -/
structure WorkflowStep where
  stage : ProcessingStage
  progress : Nat
  description : String
  timeout : Nat
deriving DecidableEq, Repr

/-- The `workflow_steps` registry, exactly as built in
`PFTWorkflowOrchestrator.__init__`. -/
def workflow_steps : List WorkflowStep :=
  [ { stage := .data_extraction, progress := 20,
      description := "Extracting and standardizing PFT data", timeout := 60 },
    { stage := .interpretation, progress := 40,
      description := "Analyzing PFT results", timeout := 90 },
    { stage := .triage_assessment, progress := 60,
      description := "Assessing clinical priority", timeout := 60 },
    { stage := .report_generation, progress := 80,
      description := "Generating professional report", timeout := 120 },
    { stage := .quality_validation, progress := 95,
      description := "Validating report quality", timeout := 30 } ]

/-- `PFTWorkflowOrchestrator._update_workflow_data`: merge one step's
result into the context, writing the slot named for the stage. -/
def _update_workflow_data (stage : ProcessingStage) (result : Payload)
    (workflow_data : WorkflowContext) : WorkflowContext :=
  match stage with
  | .data_extraction => { workflow_data with extracted_data := result }
  | .interpretation => { workflow_data with interpretation := result }
  | .triage_assessment => { workflow_data with triage_assessment := result }
  | .report_generation => { workflow_data with report_data := result }
  | .quality_validation => { workflow_data with quality_assessment := result }
  | _ => workflow_data

/-- The `processing_metadata` sub-dict of the final report. -/
structure ReportMetadata where
  workflow_version : String
  agents_used : List String
  processing_time : Nat
deriving DecidableEq, Repr

/-- The `report` dict built by `_create_final_result`.  `test_date` and
`generated_at` record the `datetime.now()` readings taken while the
report is being built. -/
structure Report where
  report_id : String
  patient_demographics : Payload
  test_date : Nat
  raw_data : String
  predicted_values : String
  percent_predicted : String
  quality_metrics : String
  interpretation : Payload
  triage : Payload
  report_content : Payload
  quality_assessment : Payload
  generated_by : String
  generated_at : Nat
  processing_metadata : ReportMetadata
deriving DecidableEq, Repr

/-- The success envelope returned by `process_pft_request`. -/
structure FinalResult where
  request_id : String
  status : String
  processing_time : Nat
  report : Report
  workflow_status : StatusDict
deriving DecidableEq, Repr

/-- The failure envelope built by `_create_error_response`. -/
structure ErrorResponse where
  request_id : String
  status : String
  error_message : String
  processing_time : Nat
  workflow_status : StatusDict
  partial_results : List (String × Payload)
deriving DecidableEq, Repr

/-- `PFTWorkflowOrchestrator._create_final_result`.  The two
`datetime.now()` calls it makes (for `test_date` and `generated_at`) are
modelled as the single instant `now` at which the aggregator runs. -/
def _create_final_result (request_id : String) (workflow_data : WorkflowContext)
    (status : WorkflowStatus) (now : Nat) : FinalResult :=
  { request_id := request_id
    status := "completed"
    processing_time := status.processing_time
    report :=
      { report_id := request_id
        patient_demographics := workflow_data.patient_demographics
        test_date := now
        raw_data := workflow_data.extracted_data.get "raw_data"
        predicted_values := workflow_data.extracted_data.get "predicted_values"
        percent_predicted := workflow_data.extracted_data.get "percent_predicted"
        quality_metrics := workflow_data.extracted_data.get "quality_metrics"
        interpretation := workflow_data.interpretation
        triage := workflow_data.triage_assessment
        report_content := workflow_data.report_data
        quality_assessment := workflow_data.quality_assessment
        generated_by := "AutoPFTReport AI"
        generated_at := now
        processing_metadata :=
          { workflow_version := "1.0"
            agents_used := workflow_steps.map (fun step => step.stage.value)
            processing_time := status.processing_time } }
    workflow_status := status.to_dict }

/-- `PFTWorkflowOrchestrator._create_error_response`. -/
def _create_error_response (request_id : String) (error_message : String)
    (status : WorkflowStatus) : ErrorResponse :=
  { request_id := request_id
    status := "failed"
    error_message := error_message
    processing_time := status.processing_time
    workflow_status := status.to_dict
    partial_results := status.stage_results }

/-- The environment of external collaborators for one run: for each
stage the duration and result of the bound agent call, and for each
gateway operation whether it succeeds (`none`) or raises an exception
with the given message (`some msg`).  `callback` is the optional
`progress_callback` argument of `process_pft_request`. -/
structure Env where
  duration : ProcessingStage → Nat
  result : ProcessingStage → Except String Payload
  publish : String → StatusDict → Option String
  persistStatus : String → StatusDict → Option String
  persistReport : String → Report → Option String
  callback : Option (StatusDict → Option String)

/-- One observable external action of the orchestrator, recorded in
program order.  A gateway call that raises records no event. -/
inductive Event where
  | publish (topic : String) (snapshot : StatusDict)
  | persistStatus (key : String) (snapshot : StatusDict)
  | callback (snapshot : StatusDict)
  | invoke (stage : ProcessingStage)
  | persistReport (key : String) (report : Report)
deriving DecidableEq, Repr

/-- What `process_pft_request` hands back to its caller: the returned
envelope, or an exception that escaped the outer handler. -/
inductive RunOutcome where
  | success (r : FinalResult)
  | failure (r : ErrorResponse)
  | raised (msg : String)
deriving DecidableEq, Repr

/-- The observable result of one orchestrator invocation: outcome, event
trace, final `WorkflowStatus`, and the history of status snapshots taken
after each `update_stage` / `set_error` transition. -/
structure RunResult where
  outcome : RunOutcome
  trace : List Event
  status : WorkflowStatus
  history : List StatusDict
deriving Repr

/-- Duration of the collaborator call `_execute_workflow_step` makes for
a stage (the argument marshalling itself takes no time). -/
def step_duration (env : Env) (stage : ProcessingStage) : Nat :=
  match stage with
  | .data_extraction | .interpretation | .triage_assessment
  | .report_generation | .quality_validation => env.duration stage
  | _ => 0

/-- `PFTWorkflowOrchestrator._execute_workflow_step`: dispatch to the
bound collaborator for the five known stages, raise `ValueError` for an
unknown stage.  Collaborator input marshalling is absorbed into `Env`:
the call's outcome is the environment's behaviour for that stage. -/
def step_result (env : Env) (stage : ProcessingStage) : Except String Payload :=
  match stage with
  | .data_extraction | .interpretation | .triage_assessment
  | .report_generation | .quality_validation => env.result stage
  | s => .error ("Unknown workflow stage: " ++ s.value)

/-- Outcome of one awaited collaborator call. -/
inductive CallOutcome where
  | ok (result : Payload)
  | timeoutError
  | exc (msg : String)
deriving DecidableEq, Repr

/-- Wall-clock seconds consumed by `asyncio.wait_for(call, timeout)`:
the call's own duration, capped at the timeout. -/
def wait_elapsed (timeout : Nat) (duration : Nat) : Nat :=
  if duration > timeout then timeout else duration

/-- `asyncio.wait_for(call, timeout)`: `TimeoutError` when the call
outlives the bound, otherwise the call's own result or exception. -/
def wait_outcome (timeout : Nat) (duration : Nat)
    (res : Except String Payload) : CallOutcome :=
  if duration > timeout then .timeoutError
  else
    match res with
    | .ok p => .ok p
    | .error e => .exc e

/-- The outer `except Exception` handler of `process_pft_request`
(spec: WorkflowFault path): set the error, persist the FAILED snapshot,
and return the failure envelope; should that persist itself raise, the
exception escapes the function. -/
def workflowFault (env : Env) (request_id : String) (error_msg : String)
    (status : WorkflowStatus) (now : Nat) : RunResult :=
  let status1 := status.set_error error_msg now
  match env.persistStatus ("pft:processing:" ++ request_id) status1.to_dict with
  | none =>
      { outcome := .failure (_create_error_response request_id error_msg status1)
        trace := [Event.persistStatus ("pft:processing:" ++ request_id)
                    status1.to_dict]
        status := status1
        history := [status1.to_dict] }
  | some e2 =>
      { outcome := .raised e2
        trace := []
        status := status1
        history := [status1.to_dict] }

/-- The per-step `except` handlers of the workflow loop (both the
`asyncio.TimeoutError` one and the generic one): set the error, persist
the FAILED snapshot and return the failure envelope.  If that persist
raises, control falls to the outer handler with an
"Unexpected error in workflow" message. -/
def stepFault (env : Env) (request_id : String) (error_msg : String)
    (status : WorkflowStatus) (now : Nat) : RunResult :=
  let status1 := status.set_error error_msg now
  match env.persistStatus ("pft:processing:" ++ request_id) status1.to_dict with
  | none =>
      { outcome := .failure (_create_error_response request_id error_msg status1)
        trace := [Event.persistStatus ("pft:processing:" ++ request_id)
                    status1.to_dict]
        status := status1
        history := [status1.to_dict] }
  | some e2 =>
      let r := workflowFault env request_id
        ("Unexpected error in workflow: " ++ e2) status1 now
      { r with history := status1.to_dict :: r.history }

/-- Outcome of the publish / persist / callback prelude run for a stage
before its collaborator is invoked: either all three succeeded, or one
of them raised.  `events` are the actions that did happen. -/
inductive GateOutcome where
  | ok (events : List Event)
  | failed (events : List Event) (msg : String)
deriving Repr

/-- Lines 203–216 of `process_pft_request`: publish the fresh snapshot,
persist it for HTTP polling, then run the optional progress callback,
stopping at the first operation that raises. -/
def stepGate (env : Env) (request_id : String) (snap : StatusDict) : GateOutcome :=
  match env.publish ("pft:progress:" ++ request_id) snap with
  | some e => .failed [] e
  | none =>
      match env.persistStatus ("pft:processing:" ++ request_id) snap with
      | some e => .failed [Event.publish ("pft:progress:" ++ request_id) snap] e
      | none =>
          match env.callback with
          | none =>
              .ok [Event.publish ("pft:progress:" ++ request_id) snap,
                   Event.persistStatus ("pft:processing:" ++ request_id) snap]
          | some cb =>
              match cb snap with
              | some e =>
                  .failed [Event.publish ("pft:progress:" ++ request_id) snap,
                           Event.persistStatus ("pft:processing:" ++ request_id) snap] e
              | none =>
                  .ok [Event.publish ("pft:progress:" ++ request_id) snap,
                       Event.persistStatus ("pft:processing:" ++ request_id) snap,
                       Event.callback snap]

/-- Lines 254–278 of `process_pft_request`: mark COMPLETED, publish and
persist the final status, run the callback, build the final result and
persist the report; any exception on this path goes to the outer
handler. -/
def finishRun (env : Env) (request_id : String) (status : WorkflowStatus)
    (workflow_data : WorkflowContext) (now : Nat) : RunResult :=
  let status1 := status.update_stage .completed 100
    "Processing completed successfully" now
  let snap := status1.to_dict
  match stepGate env request_id snap with
  | .failed es e =>
      let r := workflowFault env request_id
        ("Unexpected error in workflow: " ++ e) status1 now
      { r with trace := es ++ r.trace, history := snap :: r.history }
  | .ok es =>
      let final_result := _create_final_result request_id workflow_data status1 now
      match env.persistReport ("pft:report:" ++ request_id) final_result.report with
      | some e =>
          let r := workflowFault env request_id
            ("Unexpected error in workflow: " ++ e) status1 now
          { r with trace := es ++ r.trace, history := snap :: r.history }
      | none =>
          { outcome := .success final_result
            trace := es ++ [Event.persistReport ("pft:report:" ++ request_id)
                              final_result.report]
            status := status1
            history := [snap] }

/-- The `for step in self.workflow_steps` loop of `process_pft_request`:
advance the status, run the gate (publish, persist, callback), invoke
the collaborator under the bounded wait, record its result and merge it
into the context, or fail the workflow on the first fault. -/
def runSteps (env : Env) (request_id : String) :
    List WorkflowStep → WorkflowStatus → WorkflowContext → Nat → RunResult
  | [], status, workflow_data, now =>
      finishRun env request_id status workflow_data now
  | step :: rest, status, workflow_data, now =>
      let status1 := status.update_stage step.stage step.progress
        step.description now
      let snap := status1.to_dict
      match stepGate env request_id snap with
      | .failed es e =>
          let r := stepFault env request_id
            ("Error in step " ++ step.stage.value ++ ": " ++ e) status1 now
          { r with trace := es ++ r.trace, history := snap :: r.history }
      | .ok es =>
          let elapsed := wait_elapsed step.timeout (step_duration env step.stage)
          match wait_outcome step.timeout (step_duration env step.stage)
              (step_result env step.stage) with
          | .timeoutError =>
              let r := stepFault env request_id
                ("Timeout in step " ++ step.stage.value) status1 (now + elapsed)
              { r with trace := es ++ Event.invoke step.stage :: r.trace
                       history := snap :: r.history }
          | .exc e =>
              let r := stepFault env request_id
                ("Error in step " ++ step.stage.value ++ ": " ++ e) status1
                (now + elapsed)
              { r with trace := es ++ Event.invoke step.stage :: r.trace
                       history := snap :: r.history }
          | .ok result =>
              let status2 := { status1 with
                stage_results := dictSet status1.stage_results
                  step.stage.value result }
              let r := runSteps env request_id rest status2
                (_update_workflow_data step.stage result workflow_data)
                (now + elapsed)
              { r with trace := es ++ Event.invoke step.stage :: r.trace
                       history := snap :: r.history }

/-- `PFTWorkflowOrchestrator.process_pft_request`: build the initial
status and workflow data at admission time `t0` and run the registry.
The `historical_data or []` defaulting is assumed already applied to the
list argument. -/
def process_pft_request (env : Env) (request_id : String)
    (file_content : String) (file_type : String)
    (patient_demographics : Payload) (historical_data : List Payload)
    (priority : String) (t0 : Nat) : RunResult :=
  let status := WorkflowStatus.init request_id t0
  let workflow_data : WorkflowContext :=
    { request_id := request_id
      file_content := file_content
      file_type := file_type
      patient_demographics := patient_demographics
      historical_data := historical_data
      priority := priority
      extracted_data := []
      interpretation := []
      triage_assessment := []
      report_data := []
      quality_assessment := [] }
  runSteps env request_id workflow_steps status workflow_data t0

/-! ### Trace and history predicates -/

/-- Whether an event is a collaborator invocation. -/
def Event.isInvoke : Event → Bool
  | .invoke _ => true
  | _ => false

/-- Whether an event is the invocation of the given stage's collaborator. -/
def isInvokeOf (stage : ProcessingStage) : Event → Bool
  | .invoke s => decide (s = stage)
  | _ => false

/-- Whether an event is a broadcast of snapshot `d` on this request's
progress channel. -/
def isPublishOf (request_id : String) (d : StatusDict) : Event → Bool
  | .publish topic snap =>
      decide (topic = "pft:progress:" ++ request_id) && decide (snap = d)
  | _ => false

/-- Whether an event persists snapshot `d` under this request's durable
status key. -/
def isPersistOf (request_id : String) (d : StatusDict) : Event → Bool
  | .persistStatus key snap =>
      decide (key = "pft:processing:" ++ request_id) && decide (snap = d)
  | _ => false

/-- Boolean membership in a list of stage-name strings. -/
def memStr (a : String) : List String → Bool
  | [] => false
  | b :: t => a == b || memStr a t

/-- Scan a trace left to right, carrying the stage names already
broadcast (`pubs`) and persisted (`pers`) for this request: every
collaborator invocation must be preceded by a publish and a persist of a
status snapshot carrying its stage. -/
def publishedBeforeInvoked (request_id : String) :
    List Event → List String → List String → Bool
  | [], _, _ => true
  | Event.publish topic d :: rest, pubs, pers =>
      publishedBeforeInvoked request_id rest
        (if topic = "pft:progress:" ++ request_id then d.stage :: pubs else pubs)
        pers
  | Event.persistStatus key d :: rest, pubs, pers =>
      publishedBeforeInvoked request_id rest pubs
        (if key = "pft:processing:" ++ request_id then d.stage :: pers else pers)
  | Event.invoke s :: rest, pubs, pers =>
      memStr s.value pubs && memStr s.value pers &&
        publishedBeforeInvoked request_id rest pubs pers
  | _ :: rest, pubs, pers => publishedBeforeInvoked request_id rest pubs pers

/-- Progress is non-decreasing along a snapshot history. -/
def progressMono : List StatusDict → Bool
  | a :: b :: t => decide (a.progress ≤ b.progress) && progressMono (b :: t)
  | _ => true

/-- The registry's progress weights form an ascending chain starting at
or above `p`. -/
def stepsChain (p : Nat) : List WorkflowStep → Bool
  | [] => true
  | s :: t => decide (p ≤ s.progress) && stepsChain s.progress t

/-- Progress is non-decreasing along a history while the status has not
moved to FAILED (a pair whose later snapshot is FAILED is not
constrained). -/
def progressMonoNotFailed : List StatusDict → Bool
  | a :: b :: t =>
      (decide (b.stage = "failed") || decide (a.progress ≤ b.progress)) &&
        progressMonoNotFailed (b :: t)
  | _ => true

/-- Claim C3 as stated: along the transition history, progress never
decreases while the status has not moved to FAILED, and in every
snapshot the progress is 100 exactly when the stage is COMPLETED. -/
def claimProgressInvariant (r : RunResult) : Bool :=
  progressMonoNotFailed r.history &&
    r.history.all fun d =>
      decide (d.progress = 100) == decide (d.stage = "completed")

/-- Claim C4 as stated: every transition snapshot in the history is both
broadcast on the progress channel and persisted under the durable key. -/
def everyTransitionPublishedPersisted (request_id : String) (r : RunResult) : Bool :=
  r.history.all fun d =>
    r.trace.any (isPublishOf request_id d) && r.trace.any (isPersistOf request_id d)

/-- The final envelope with the two clock-stamped report fields
normalized away, to isolate what depends on the call instant. -/
def scrubTimes (r : FinalResult) : FinalResult :=
  { r with report := { r.report with test_date := 0, generated_at := 0 } }

/-- The `status` field of the returned envelope, when one was returned. -/
def RunOutcome.envelopeStatus : RunOutcome → Option String
  | .success fr => some fr.status
  | .failure er => some er.status
  | .raised _ => none

/-- The `error_message` field of the returned failure envelope. -/
def RunOutcome.errorMessage : RunOutcome → Option String
  | .failure er => some er.error_message
  | _ => none

/-- The `partial_results` field of the returned failure envelope. -/
def RunOutcome.partialResults : RunOutcome → Option (List (String × Payload))
  | .failure er => some er.partial_results
  | _ => none

/-- The `progress` of the final status snapshot embedded in the
returned envelope. -/
def RunOutcome.progressOf : RunOutcome → Option Nat
  | .success fr => some fr.workflow_status.progress
  | .failure er => some er.workflow_status.progress
  | .raised _ => none

/-- The `stage` of the final status snapshot embedded in the returned
envelope. -/
def RunOutcome.stageOf : RunOutcome → Option String
  | .success fr => some fr.workflow_status.stage
  | .failure er => some er.workflow_status.stage
  | .raised _ => none

/-- The `agents_used` list of the returned report's metadata (the spec's
`metadata.executedStages`). -/
def RunOutcome.agentsUsed : RunOutcome → Option (List String)
  | .success fr => some fr.report.processing_metadata.agents_used
  | _ => none

/-! ### Concrete sample inputs for witnesses and counterexamples -/

/-- A collaborator family that answers every stage promptly and
deterministically. -/
def collabOK : ProcessingStage → Except String Payload :=
  fun s => .ok [("result", s.value)]

/-- Environment in which every collaborator answers within a second and
every gateway operation succeeds. -/
def envAllOK : Env :=
  { duration := fun _ => 1
    result := collabOK
    publish := fun _ _ => none
    persistStatus := fun _ _ => none
    persistReport := fun _ _ => none
    callback := none }

/-- Healthy gateway, but the first stage's collaborator overruns its
60-second bounded wait. -/
def envTimeoutStage1 : Env :=
  { envAllOK with duration := fun s => if s = .data_extraction then 61 else 1 }

/-- Healthy gateway, but the second stage's collaborator takes 91
seconds against its 90-second bounded wait. -/
def envTimeoutStage2 : Env :=
  { envAllOK with duration := fun s => if s = .interpretation then 91 else 1 }

/-- Healthy gateway, but the third stage's collaborator raises. -/
def envErrStage3 : Env :=
  { envAllOK with
      result := fun s =>
        if s = .triage_assessment then .error "boom" else collabOK s }

/-- Collaborators and status gateway healthy, but persisting the final
report raises. -/
def envReportFault : Env :=
  { envAllOK with persistReport := fun _ _ => some "redis down" }

/-- The broadcast channel raises on every publish; the durable store is
healthy. -/
def envPublishFault : Env :=
  { envAllOK with publish := fun _ _ => some "channel down" }

/-- A context as it stands at the end of a successful run. -/
def sampleContext : WorkflowContext :=
  { request_id := "req"
    file_content := "fc"
    file_type := "csv"
    patient_demographics := [("age", "50")]
    historical_data := []
    priority := "routine"
    extracted_data := [("raw_data", "x")]
    interpretation := [("pattern", "normal")]
    triage_assessment := [("urgency", "routine")]
    report_data := [("text", "ok")]
    quality_assessment := [("score", "9")] }

/-- A terminal (COMPLETED) status reached five seconds after admission. -/
def sampleStatus : WorkflowStatus :=
  (WorkflowStatus.init "req" 100).update_stage .completed 100
    "Processing completed successfully" 105

/-! ### C9: per-stage merge writes exactly one slot -/

/-- C9: merging a stage's successful result into the workflow context
writes exactly the one slot named for that stage (extracted_data,
interpretation, triage_assessment, report_data, quality_assessment
respectively) and leaves every other context field — including the
original request inputs — unchanged. -/
theorem update_workflow_data_single_slot (result : Payload) (wd : WorkflowContext) :
    ((_update_workflow_data .data_extraction result wd).extracted_data = result ∧
      (_update_workflow_data .data_extraction result wd).request_id = wd.request_id ∧
      (_update_workflow_data .data_extraction result wd).file_content = wd.file_content ∧
      (_update_workflow_data .data_extraction result wd).file_type = wd.file_type ∧
      (_update_workflow_data .data_extraction result wd).patient_demographics = wd.patient_demographics ∧
      (_update_workflow_data .data_extraction result wd).historical_data = wd.historical_data ∧
      (_update_workflow_data .data_extraction result wd).priority = wd.priority ∧
      (_update_workflow_data .data_extraction result wd).interpretation = wd.interpretation ∧
      (_update_workflow_data .data_extraction result wd).triage_assessment = wd.triage_assessment ∧
      (_update_workflow_data .data_extraction result wd).report_data = wd.report_data ∧
      (_update_workflow_data .data_extraction result wd).quality_assessment = wd.quality_assessment) ∧
    ((_update_workflow_data .interpretation result wd).interpretation = result ∧
      (_update_workflow_data .interpretation result wd).request_id = wd.request_id ∧
      (_update_workflow_data .interpretation result wd).file_content = wd.file_content ∧
      (_update_workflow_data .interpretation result wd).file_type = wd.file_type ∧
      (_update_workflow_data .interpretation result wd).patient_demographics = wd.patient_demographics ∧
      (_update_workflow_data .interpretation result wd).historical_data = wd.historical_data ∧
      (_update_workflow_data .interpretation result wd).priority = wd.priority ∧
      (_update_workflow_data .interpretation result wd).extracted_data = wd.extracted_data ∧
      (_update_workflow_data .interpretation result wd).triage_assessment = wd.triage_assessment ∧
      (_update_workflow_data .interpretation result wd).report_data = wd.report_data ∧
      (_update_workflow_data .interpretation result wd).quality_assessment = wd.quality_assessment) ∧
    ((_update_workflow_data .triage_assessment result wd).triage_assessment = result ∧
      (_update_workflow_data .triage_assessment result wd).request_id = wd.request_id ∧
      (_update_workflow_data .triage_assessment result wd).file_content = wd.file_content ∧
      (_update_workflow_data .triage_assessment result wd).file_type = wd.file_type ∧
      (_update_workflow_data .triage_assessment result wd).patient_demographics = wd.patient_demographics ∧
      (_update_workflow_data .triage_assessment result wd).historical_data = wd.historical_data ∧
      (_update_workflow_data .triage_assessment result wd).priority = wd.priority ∧
      (_update_workflow_data .triage_assessment result wd).extracted_data = wd.extracted_data ∧
      (_update_workflow_data .triage_assessment result wd).interpretation = wd.interpretation ∧
      (_update_workflow_data .triage_assessment result wd).report_data = wd.report_data ∧
      (_update_workflow_data .triage_assessment result wd).quality_assessment = wd.quality_assessment) ∧
    ((_update_workflow_data .report_generation result wd).report_data = result ∧
      (_update_workflow_data .report_generation result wd).request_id = wd.request_id ∧
      (_update_workflow_data .report_generation result wd).file_content = wd.file_content ∧
      (_update_workflow_data .report_generation result wd).file_type = wd.file_type ∧
      (_update_workflow_data .report_generation result wd).patient_demographics = wd.patient_demographics ∧
      (_update_workflow_data .report_generation result wd).historical_data = wd.historical_data ∧
      (_update_workflow_data .report_generation result wd).priority = wd.priority ∧
      (_update_workflow_data .report_generation result wd).extracted_data = wd.extracted_data ∧
      (_update_workflow_data .report_generation result wd).interpretation = wd.interpretation ∧
      (_update_workflow_data .report_generation result wd).triage_assessment = wd.triage_assessment ∧
      (_update_workflow_data .report_generation result wd).quality_assessment = wd.quality_assessment) ∧
    ((_update_workflow_data .quality_validation result wd).quality_assessment = result ∧
      (_update_workflow_data .quality_validation result wd).request_id = wd.request_id ∧
      (_update_workflow_data .quality_validation result wd).file_content = wd.file_content ∧
      (_update_workflow_data .quality_validation result wd).file_type = wd.file_type ∧
      (_update_workflow_data .quality_validation result wd).patient_demographics = wd.patient_demographics ∧
      (_update_workflow_data .quality_validation result wd).historical_data = wd.historical_data ∧
      (_update_workflow_data .quality_validation result wd).priority = wd.priority ∧
      (_update_workflow_data .quality_validation result wd).extracted_data = wd.extracted_data ∧
      (_update_workflow_data .quality_validation result wd).interpretation = wd.interpretation ∧
      (_update_workflow_data .quality_validation result wd).triage_assessment = wd.triage_assessment ∧
      (_update_workflow_data .quality_validation result wd).report_data = wd.report_data) := by
  simp [_update_workflow_data]

/-! ### C6: aggregator determinism -/

/-- C6 counterexample: running the aggregator over the very same
terminal status/context pair at two different instants yields different
envelopes (the report's `test_date` and `generated_at` come from
`datetime.now()` at call time). -/
theorem create_final_result_not_time_independent :
    _create_final_result "req" sampleContext sampleStatus 105 ≠
      _create_final_result "req" sampleContext sampleStatus 106 := by
  decide

/-- C6 amended: apart from the report's `test_date` and `generated_at`
fields, which are stamped from the clock at call time, the aggregated
envelope depends only on the already-recorded status and context: any
two runs of the aggregator over the same pair agree after those two
fields are normalized. -/
theorem create_final_result_scrubbed_deterministic (request_id : String)
    (workflow_data : WorkflowContext) (status : WorkflowStatus) (n1 n2 : Nat) :
    scrubTimes (_create_final_result request_id workflow_data status n1) =
      scrubTimes (_create_final_result request_id workflow_data status n2) := rfl

/-! ### C7: fail on a terminal status -/

/-- C7 counterexample: `set_error` called on a status that is already
COMPLETED is not rejected and is not a no-op — it changes the status. -/
theorem set_error_not_noop_on_terminal :
    sampleStatus.stage = .completed ∧
      sampleStatus.set_error "late fault" 200 ≠ sampleStatus := by
  refine ⟨rfl, ?_⟩
  decide

/-- C7 amended: `set_error` is unguarded — called on a status already in
a terminal state it overwrites `currentStage` to FAILED and restamps
`completedAt` and `processingTimeSeconds` from the current clock, while
leaving `progress`, `stageResults`, `requestId` and `startedAt`
untouched. -/
theorem set_error_overwrites_terminal (s : WorkflowStatus) (msg : String) (now : Nat)
    (hterm : s.stage = .completed ∨ s.stage = .failed) :
    (s.set_error msg now).stage = .failed ∧
      (s.set_error msg now).error_message = some msg ∧
      (s.set_error msg now).completed_at = some now ∧
      (s.set_error msg now).processing_time = now - s.started_at ∧
      (s.set_error msg now).progress = s.progress ∧
      (s.set_error msg now).stage_results = s.stage_results ∧
      (s.set_error msg now).request_id = s.request_id ∧
      (s.set_error msg now).started_at = s.started_at :=
  ⟨rfl, rfl, rfl, rfl, rfl, rfl, rfl, rfl⟩

/-- Witness for the amended C7 at a concrete COMPLETED status. -/
theorem set_error_overwrites_terminal_witness :
    (sampleStatus.set_error "late fault" 200).stage = .failed ∧
      (sampleStatus.set_error "late fault" 200).error_message = some "late fault" ∧
      (sampleStatus.set_error "late fault" 200).completed_at = some 200 ∧
      (sampleStatus.set_error "late fault" 200).processing_time = 200 - sampleStatus.started_at ∧
      (sampleStatus.set_error "late fault" 200).progress = sampleStatus.progress ∧
      (sampleStatus.set_error "late fault" 200).stage_results = sampleStatus.stage_results ∧
      (sampleStatus.set_error "late fault" 200).request_id = sampleStatus.request_id ∧
      (sampleStatus.set_error "late fault" 200).started_at = sampleStatus.started_at :=
  set_error_overwrites_terminal sampleStatus "late fault" 200 (Or.inl rfl)

/-! ### C1: publish and persist strictly before each invocation -/

/-- A status snapshot taken after `update_stage` carries the stage just
advanced to. -/
theorem to_dict_stage_update (s : WorkflowStatus) (stage : ProcessingStage)
    (progress : Nat) (descr : String) (now : Nat) :
    ((s.update_stage stage progress descr now).to_dict).stage = stage.value := by
  unfold WorkflowStatus.update_stage WorkflowStatus.to_dict
  split <;> rfl

/-- A status snapshot taken after `set_error` carries the FAILED stage. -/
theorem to_dict_stage_set_error (s : WorkflowStatus) (msg : String) (now : Nat) :
    ((s.set_error msg now).to_dict).stage = "failed" := rfl

/-- A trace without invocation events passes the publish-before-invoke
scan from any scan state. -/
theorem publishedBeforeInvoked_of_noInvoke (request_id : String) :
    ∀ (t : List Event), (∀ e ∈ t, e.isInvoke = false) →
      ∀ pubs pers, publishedBeforeInvoked request_id t pubs pers = true := by
  intro t
  induction t with
  | nil => intro _ pubs pers; rfl
  | cons e rest ih =>
      intro h pubs pers
      have hrest : ∀ x ∈ rest, x.isInvoke = false := fun x hx => h x (by simp [hx])
      cases e with
      | publish topic d => exact ih hrest _ _
      | persistStatus key d => exact ih hrest _ _
      | callback d => exact ih hrest _ _
      | persistReport key rep => exact ih hrest _ _
      | invoke s =>
          have := h (Event.invoke s) (by simp)
          simp [Event.isInvoke] at this

/-- The outer-fault path performs no collaborator invocation. -/
theorem workflowFault_noInvoke (env : Env) (request_id msg : String)
    (status : WorkflowStatus) (now : Nat) :
    ∀ e ∈ (workflowFault env request_id msg status now).trace, e.isInvoke = false := by
  cases h : env.persistStatus ("pft:processing:" ++ request_id)
      ((status.set_error msg now).to_dict) with
  | none => simp [workflowFault, h, Event.isInvoke]
  | some e2 => simp [workflowFault, h, Event.isInvoke]

/-- The per-step fault path performs no collaborator invocation. -/
theorem stepFault_noInvoke (env : Env) (request_id msg : String)
    (status : WorkflowStatus) (now : Nat) :
    ∀ e ∈ (stepFault env request_id msg status now).trace, e.isInvoke = false := by
  cases h : env.persistStatus ("pft:processing:" ++ request_id)
      ((status.set_error msg now).to_dict) with
  | none => simp [stepFault, h, Event.isInvoke]
  | some e2 =>
      have hw := workflowFault_noInvoke env request_id
        ("Unexpected error in workflow: " ++ e2) (status.set_error msg now) now
      simpa [stepFault, h] using hw

/-- Inversion for the stage gate on success: the recorded actions are
the publish and the persist of the snapshot, optionally followed by the
progress callback. -/
theorem stepGate_ok_shape (env : Env) (request_id : String) (snap : StatusDict)
    (es : List Event) (h : stepGate env request_id snap = .ok es) :
    es = [Event.publish ("pft:progress:" ++ request_id) snap,
          Event.persistStatus ("pft:processing:" ++ request_id) snap] ∨
    es = [Event.publish ("pft:progress:" ++ request_id) snap,
          Event.persistStatus ("pft:processing:" ++ request_id) snap,
          Event.callback snap] := by
  unfold stepGate at h
  repeat' split at h
  all_goals simp_all

/-- Inversion for the stage gate on failure: the actions that did happen
are a prefix of publish then persist. -/
theorem stepGate_failed_shape (env : Env) (request_id : String) (snap : StatusDict)
    (es : List Event) (msg : String)
    (h : stepGate env request_id snap = .failed es msg) :
    es = [] ∨
    es = [Event.publish ("pft:progress:" ++ request_id) snap] ∨
    es = [Event.publish ("pft:progress:" ++ request_id) snap,
          Event.persistStatus ("pft:processing:" ++ request_id) snap] := by
  unfold stepGate at h
  repeat' split at h
  all_goals simp_all

/-- The actions the stage gate records are publishes, persists and
callbacks, never a collaborator invocation. -/
theorem stepGate_events_noInvoke (env : Env) (request_id : String)
    (snap : StatusDict) (es : List Event)
    (h : stepGate env request_id snap = .ok es ∨
         ∃ m, stepGate env request_id snap = .failed es m) :
    ∀ e ∈ es, e.isInvoke = false := by
  rcases h with h | ⟨m, h⟩
  · rcases stepGate_ok_shape _ _ _ _ h with h1 | h1 <;> subst h1 <;>
      simp [Event.isInvoke]
  · rcases stepGate_failed_shape _ _ _ _ _ h with h1 | h1 | h1 <;> subst h1 <;>
      simp [Event.isInvoke]

/-- The completion path performs no collaborator invocation. -/
theorem finishRun_noInvoke (env : Env) (request_id : String)
    (status : WorkflowStatus) (workflow_data : WorkflowContext) (now : Nat) :
    ∀ e ∈ (finishRun env request_id status workflow_data now).trace,
      e.isInvoke = false := by
  cases hg : stepGate env request_id
      ((status.update_stage .completed 100
        "Processing completed successfully" now).to_dict) with
  | failed es msg =>
      intro e he
      simp only [finishRun, hg] at he
      rcases List.mem_append.mp he with h | h
      · exact stepGate_events_noInvoke env request_id _ es (Or.inr ⟨msg, hg⟩) e h
      · exact workflowFault_noInvoke env request_id _ _ now e h
  | ok es =>
      intro e he
      cases hr : env.persistReport ("pft:report:" ++ request_id)
          (_create_final_result request_id workflow_data
            (status.update_stage .completed 100
              "Processing completed successfully" now) now).report with
      | some e2 =>
          simp only [finishRun, hg, hr] at he
          rcases List.mem_append.mp he with h | h
          · exact stepGate_events_noInvoke env request_id _ es (Or.inl hg) e h
          · exact workflowFault_noInvoke env request_id _ _ now e h
      | none =>
          simp only [finishRun, hg, hr] at he
          rcases List.mem_append.mp he with h | h
          · exact stepGate_events_noInvoke env request_id _ es (Or.inl hg) e h
          · simp at h
            subst h
            rfl

/-- Main loop invariant for C1: from any scan state, the trace produced
by running any list of steps passes the publish-before-invoke scan. -/
theorem runSteps_publishedBeforeInvoked (env : Env) (request_id : String) :
    ∀ (steps : List WorkflowStep) (status : WorkflowStatus)
      (workflow_data : WorkflowContext) (now : Nat) (pubs pers : List String),
      publishedBeforeInvoked request_id
        ((runSteps env request_id steps status workflow_data now).trace)
        pubs pers = true := by
  intro steps
  induction steps with
  | nil =>
      intro status wd now pubs pers
      exact publishedBeforeInvoked_of_noInvoke request_id _
        (finishRun_noInvoke env request_id status wd now) pubs pers
  | cons step rest ih =>
      intro status wd now pubs pers
      cases hg : stepGate env request_id
          ((status.update_stage step.stage step.progress step.description
            now).to_dict) with
      | failed es msg =>
          rcases stepGate_failed_shape _ _ _ _ _ hg with h | h | h <;> subst h <;>
            simp only [runSteps, hg] <;>
            simp [publishedBeforeInvoked] <;>
            exact publishedBeforeInvoked_of_noInvoke request_id _
              (stepFault_noInvoke env request_id _ _ now) _ _
      | ok es =>
          rcases stepGate_ok_shape _ _ _ _ hg with h | h <;> subst h <;>
            simp only [runSteps, hg]
          all_goals
            cases hw : wait_outcome step.timeout (step_duration env step.stage)
                (step_result env step.stage) with
            | timeoutError =>
                simp [publishedBeforeInvoked, to_dict_stage_update, memStr,
                  beq_self_eq_true]
                exact publishedBeforeInvoked_of_noInvoke request_id _
                  (stepFault_noInvoke env request_id _ _ _) _ _
            | exc e =>
                simp [publishedBeforeInvoked, to_dict_stage_update, memStr,
                  beq_self_eq_true]
                exact publishedBeforeInvoked_of_noInvoke request_id _
                  (stepFault_noInvoke env request_id _ _ _) _ _
            | ok result =>
                simp [publishedBeforeInvoked, to_dict_stage_update, memStr,
                  beq_self_eq_true]
                exact ih _ _ _ _ _

/-- C1: for every stage in the registry, the orchestrator publishes and
persists the freshly advanced status snapshot for that stage strictly
before the stage's collaborator is invoked, on every run. -/
theorem publish_persist_before_invoke (env : Env)
    (request_id file_content file_type priority : String)
    (patient_demographics : Payload) (historical_data : List Payload)
    (t0 : Nat) :
    publishedBeforeInvoked request_id
      ((process_pft_request env request_id file_content file_type
        patient_demographics historical_data priority t0).trace) [] [] = true :=
  runSteps_publishedBeforeInvoked env request_id workflow_steps _ _ t0 [] []

/-! ### C4: transitions persisted, non-failed transitions also published -/

/-- Main loop invariant for the amended C4: when the broadcast channel
and the durable store themselves never raise, every transition snapshot
in the history is persisted, and every snapshot not in the FAILED state
is also published. -/
theorem runSteps_transitions_gateway (env : Env) (request_id : String)
    (hpub : ∀ topic d, env.publish topic d = none)
    (hper : ∀ key d, env.persistStatus key d = none) :
    ∀ (steps : List WorkflowStep) (status : WorkflowStatus)
      (workflow_data : WorkflowContext) (now : Nat),
      ∀ d ∈ (runSteps env request_id steps status workflow_data now).history,
        (runSteps env request_id steps status workflow_data now).trace.any
          (isPersistOf request_id d) = true ∧
        (d.stage ≠ "failed" →
          (runSteps env request_id steps status workflow_data now).trace.any
            (isPublishOf request_id d) = true) := by
  intro steps
  induction steps with
  | nil =>
      intro status wd now d hd
      cases hcb : env.callback with
      | none =>
          cases hr : env.persistReport ("pft:report:" ++ request_id)
              (_create_final_result request_id wd
                (status.update_stage .completed 100
                  "Processing completed successfully" now) now).report with
          | none =>
              simp only [runSteps, finishRun, stepGate, hpub, hper, hcb, hr] at hd ⊢
              simp at hd
              subst hd
              simp [isPersistOf, isPublishOf]
          | some e2 =>
              simp only [runSteps, finishRun, stepGate, workflowFault,
                hpub, hper, hcb, hr] at hd ⊢
              simp at hd
              rcases hd with hd | hd <;> subst hd <;>
                simp [isPersistOf, isPublishOf, to_dict_stage_set_error]
      | some cb =>
          cases hcbr : cb ((status.update_stage .completed 100
              "Processing completed successfully" now).to_dict) with
          | none =>
              cases hr : env.persistReport ("pft:report:" ++ request_id)
                  (_create_final_result request_id wd
                    (status.update_stage .completed 100
                      "Processing completed successfully" now) now).report with
              | none =>
                  simp only [runSteps, finishRun, stepGate, hpub, hper,
                    hcb, hcbr, hr] at hd ⊢
                  simp at hd
                  subst hd
                  simp [isPersistOf, isPublishOf]
              | some e2 =>
                  simp only [runSteps, finishRun, stepGate, workflowFault,
                    hpub, hper, hcb, hcbr, hr] at hd ⊢
                  simp at hd
                  rcases hd with hd | hd <;> subst hd <;>
                    simp [isPersistOf, isPublishOf, to_dict_stage_set_error]
          | some e2 =>
              simp only [runSteps, finishRun, stepGate, workflowFault,
                hpub, hper, hcb, hcbr] at hd ⊢
              simp at hd
              rcases hd with hd | hd <;> subst hd <;>
                simp [isPersistOf, isPublishOf, to_dict_stage_set_error]
  | cons step rest ih =>
      intro status wd now d hd
      cases hcb : env.callback with
      | none =>
          cases hw : wait_outcome step.timeout (step_duration env step.stage)
              (step_result env step.stage) with
          | timeoutError =>
              simp only [runSteps, stepGate, stepFault, hpub, hper, hcb, hw] at hd ⊢
              simp at hd
              rcases hd with hd | hd <;> subst hd <;>
                simp [isPersistOf, isPublishOf, to_dict_stage_set_error]
          | exc e =>
              simp only [runSteps, stepGate, stepFault, hpub, hper, hcb, hw] at hd ⊢
              simp at hd
              rcases hd with hd | hd <;> subst hd <;>
                simp [isPersistOf, isPublishOf, to_dict_stage_set_error]
          | ok result =>
              simp only [runSteps, stepGate, hpub, hper, hcb, hw] at hd ⊢
              simp at hd
              rcases hd with hd | hd
              · subst hd
                simp [isPersistOf, isPublishOf]
              · have := ih _ _ (now + wait_elapsed step.timeout
                  (step_duration env step.stage)) d hd
                constructor
                · simp [List.any_append, List.any_cons]
                  exact Or.inr (Or.inr (Or.inr (List.any_eq_true.mp this.1)))
                · intro hdf
                  simp [List.any_append, List.any_cons]
                  exact Or.inr (Or.inr (Or.inr (List.any_eq_true.mp (this.2 hdf))))
      | some cb =>
          cases hcbr : cb ((status.update_stage step.stage step.progress
              step.description now).to_dict) with
          | some e2 =>
              simp only [runSteps, stepGate, stepFault, hpub, hper,
                hcb, hcbr] at hd ⊢
              simp at hd
              rcases hd with hd | hd <;> subst hd <;>
                simp [isPersistOf, isPublishOf, to_dict_stage_set_error]
          | none =>
              cases hw : wait_outcome step.timeout (step_duration env step.stage)
                  (step_result env step.stage) with
              | timeoutError =>
                  simp only [runSteps, stepGate, stepFault, hpub, hper,
                    hcb, hcbr, hw] at hd ⊢
                  simp at hd
                  rcases hd with hd | hd <;> subst hd <;>
                    simp [isPersistOf, isPublishOf, to_dict_stage_set_error]
              | exc e =>
                  simp only [runSteps, stepGate, stepFault, hpub, hper,
                    hcb, hcbr, hw] at hd ⊢
                  simp at hd
                  rcases hd with hd | hd <;> subst hd <;>
                    simp [isPersistOf, isPublishOf, to_dict_stage_set_error]
              | ok result =>
                  simp only [runSteps, stepGate, hpub, hper, hcb, hcbr, hw] at hd ⊢
                  simp at hd
                  rcases hd with hd | hd
                  · subst hd
                    simp [isPersistOf, isPublishOf]
                  · have := ih _ _ (now + wait_elapsed step.timeout
                      (step_duration env step.stage)) d hd
                    constructor
                    · simp [List.any_append, List.any_cons]
                      exact Or.inr (Or.inr (Or.inr (Or.inr
                        (List.any_eq_true.mp this.1))))
                    · intro hdf
                      simp [List.any_append, List.any_cons]
                      exact Or.inr (Or.inr (Or.inr (Or.inr
                        (List.any_eq_true.mp (this.2 hdf)))))

/-! ### C3: progress monotonicity and the progress-100 invariant -/

/-- `update_stage` sets the progress field in both of its branches. -/
theorem update_stage_progress (s : WorkflowStatus) (stage : ProcessingStage)
    (p : Nat) (descr : String) (now : Nat) :
    (s.update_stage stage p descr now).progress = p := by
  unfold WorkflowStatus.update_stage
  split <;> rfl

/-- `update_stage` sets the stage field in both of its branches. -/
theorem update_stage_stage (s : WorkflowStatus) (stage : ProcessingStage)
    (p : Nat) (descr : String) (now : Nat) :
    (s.update_stage stage p descr now).stage = stage := by
  unfold WorkflowStatus.update_stage
  split <;> rfl

/-- A snapshot of a failed status keeps the progress reached so far. -/
theorem to_dict_progress_set_error (s : WorkflowStatus) (msg : String) (now : Nat) :
    ((s.set_error msg now).to_dict).progress = s.progress := rfl

/-- A snapshot carries its status's progress. -/
theorem to_dict_progress (s : WorkflowStatus) : (s.to_dict).progress = s.progress := rfl

/-- Only the COMPLETED stage serializes to the string "completed". -/
theorem value_eq_completed (s : ProcessingStage) :
    s.value = "completed" ↔ s = .completed := by
  cases s <;> simp [ProcessingStage.value]

/-- Every snapshot recorded by the outer-fault path is a FAILED snapshot
that keeps the progress of the status it failed from. -/
theorem workflowFault_history_facts (env : Env) (request_id msg : String)
    (status : WorkflowStatus) (now : Nat) :
    ∀ d ∈ (workflowFault env request_id msg status now).history,
      d.stage = "failed" ∧ d.progress = status.progress := by
  cases h : env.persistStatus ("pft:processing:" ++ request_id)
      ((status.set_error msg now).to_dict) with
  | none => simp [workflowFault, h, to_dict_stage_set_error,
      to_dict_progress_set_error]
  | some e2 => simp [workflowFault, h, to_dict_stage_set_error,
      to_dict_progress_set_error]

/-- Every snapshot recorded by the per-step fault path is a FAILED
snapshot that keeps the progress of the status it failed from. -/
theorem stepFault_history_facts (env : Env) (request_id msg : String)
    (status : WorkflowStatus) (now : Nat) :
    ∀ d ∈ (stepFault env request_id msg status now).history,
      d.stage = "failed" ∧ d.progress = status.progress := by
  cases h : env.persistStatus ("pft:processing:" ++ request_id)
      ((status.set_error msg now).to_dict) with
  | none => simp [stepFault, h, to_dict_stage_set_error,
      to_dict_progress_set_error]
  | some e2 =>
      intro d hd
      simp [stepFault, h] at hd
      rcases hd with hd | hd
      · subst hd
        exact ⟨rfl, rfl⟩
      · exact workflowFault_history_facts env request_id _
          (status.set_error msg now) now d hd

/-- Extend a monotone history on the left. -/
theorem progressMono_cons (a : StatusDict) (l : List StatusDict)
    (h1 : progressMono l = true) (h2 : ∀ d ∈ l, a.progress ≤ d.progress) :
    progressMono (a :: l) = true := by
  cases l with
  | nil => rfl
  | cons b t =>
      simp only [progressMono, Bool.and_eq_true, decide_eq_true_eq]
      exact ⟨h2 b (by simp), h1⟩

/-- A history whose snapshots all carry the same progress is monotone. -/
theorem progressMono_of_const (p : Nat) : ∀ l : List StatusDict,
    (∀ d ∈ l, d.progress = p) → progressMono l = true := by
  intro l
  induction l with
  | nil => intro _; rfl
  | cons a t ih =>
      intro h
      apply progressMono_cons
      · exact ih fun d hd => h d (by simp [hd])
      · intro d hd
        rw [h a (by simp), h d (by simp [hd])]

/-- Main loop invariant for the amended C3: the transition history is
progress-monotone, bounded below by the entry progress, and every
snapshot that is not FAILED has progress 100 exactly when its stage is
COMPLETED — provided the remaining registry entries carry ascending
weights below 100 and stages other than COMPLETED. -/
theorem runSteps_progress (env : Env) (request_id : String) :
    ∀ (steps : List WorkflowStep) (status : WorkflowStatus)
      (workflow_data : WorkflowContext) (now : Nat),
      status.progress ≤ 100 →
      stepsChain status.progress steps = true →
      (∀ s ∈ steps, s.progress ≠ 100 ∧ s.stage ≠ .completed ∧ s.progress ≤ 100) →
      progressMono ((runSteps env request_id steps status workflow_data now).history) = true ∧
      (∀ d ∈ (runSteps env request_id steps status workflow_data now).history,
        status.progress ≤ d.progress) ∧
      ((runSteps env request_id steps status workflow_data now).history.all fun d =>
        decide (d.stage = "failed") ||
          (decide (d.progress = 100) == decide (d.stage = "completed"))) = true := by
  intro steps
  induction steps with
  | nil =>
      intro status wd now hp100 _ _
      cases hg : stepGate env request_id
          ((status.update_stage .completed 100
            "Processing completed successfully" now).to_dict) with
      | failed es msg =>
          simp only [runSteps, finishRun, hg]
          have hfacts := workflowFault_history_facts env request_id
            ("Unexpected error in workflow: " ++ msg)
            (status.update_stage .completed 100
              "Processing completed successfully" now) now
          refine ⟨?_, ?_, ?_⟩
          · apply progressMono_cons
            · apply progressMono_of_const 100
              intro d hd
              rw [(hfacts d hd).2, update_stage_progress]
            · intro d hd
              rw [to_dict_progress, update_stage_progress, (hfacts d hd).2,
                update_stage_progress]
          · intro d hd
            simp at hd
            rcases hd with hd | hd
            · subst hd
              rw [to_dict_progress, update_stage_progress]
              exact hp100
            · rw [(hfacts d hd).2, update_stage_progress]
              exact hp100
          · simp only [List.all_cons, Bool.and_eq_true]
            constructor
            · simp [to_dict_progress, update_stage_progress,
                WorkflowStatus.to_dict, update_stage_stage, ProcessingStage.value]
            · rw [List.all_eq_true]
              intro d hd
              simp [(hfacts d hd).1]
      | ok es =>
          cases hr : env.persistReport ("pft:report:" ++ request_id)
              (_create_final_result request_id wd
                (status.update_stage .completed 100
                  "Processing completed successfully" now) now).report with
          | some e2 =>
              simp only [runSteps, finishRun, hg, hr]
              have hfacts := workflowFault_history_facts env request_id
                ("Unexpected error in workflow: " ++ e2)
                (status.update_stage .completed 100
                  "Processing completed successfully" now) now
              refine ⟨?_, ?_, ?_⟩
              · apply progressMono_cons
                · apply progressMono_of_const 100
                  intro d hd
                  rw [(hfacts d hd).2, update_stage_progress]
                · intro d hd
                  rw [to_dict_progress, update_stage_progress, (hfacts d hd).2,
                    update_stage_progress]
              · intro d hd
                simp at hd
                rcases hd with hd | hd
                · subst hd
                  rw [to_dict_progress, update_stage_progress]
                  exact hp100
                · rw [(hfacts d hd).2, update_stage_progress]
                  exact hp100
              · simp only [List.all_cons, Bool.and_eq_true]
                constructor
                · simp [to_dict_progress, update_stage_progress,
                    WorkflowStatus.to_dict, update_stage_stage, ProcessingStage.value]
                · rw [List.all_eq_true]
                  intro d hd
                  simp [(hfacts d hd).1]
          | none =>
              simp only [runSteps, finishRun, hg, hr]
              refine ⟨rfl, ?_, ?_⟩
              · intro d hd
                simp at hd
                subst hd
                rw [to_dict_progress, update_stage_progress]
                exact hp100
              · simp [to_dict_progress, update_stage_progress,
                  WorkflowStatus.to_dict, update_stage_stage, ProcessingStage.value]
  | cons step rest ih =>
      intro status wd now hp100 hchain hsteps
      have hstep := hsteps step (by simp)
      have hle : status.progress ≤ step.progress := by
        simp only [stepsChain, Bool.and_eq_true, decide_eq_true_eq] at hchain
        exact hchain.1
      have hchain2 : stepsChain step.progress rest = true := by
        simp only [stepsChain, Bool.and_eq_true, decide_eq_true_eq] at hchain
        exact hchain.2
      have hsnap_stage :
          ((status.update_stage step.stage step.progress step.description
            now).to_dict).stage = step.stage.value :=
        to_dict_stage_update status step.stage step.progress step.description now
      have hsnap_prog :
          ((status.update_stage step.stage step.progress step.description
            now).to_dict).progress = step.progress := by
        rw [to_dict_progress, update_stage_progress]
      have hsnap_check :
          (decide ((((status.update_stage step.stage step.progress step.description
              now).to_dict)).stage = "failed") ||
            (decide ((((status.update_stage step.stage step.progress step.description
              now).to_dict)).progress = 100) ==
             decide ((((status.update_stage step.stage step.progress step.description
              now).to_dict)).stage = "completed"))) = true := by
        rw [hsnap_stage, hsnap_prog]
        have h1 : decide (step.progress = 100) = false := by
          simp [hstep.1]
        have h2 : decide (step.stage.value = "completed") = false := by
          simp [value_eq_completed, hstep.2.1]
        simp [h1, h2]
      cases hg : stepGate env request_id
          ((status.update_stage step.stage step.progress step.description
            now).to_dict) with
      | failed es msg =>
          simp only [runSteps, hg]
          have hfacts := stepFault_history_facts env request_id
            ("Error in step " ++ step.stage.value ++ ": " ++ msg)
            (status.update_stage step.stage step.progress step.description now) now
          refine ⟨?_, ?_, ?_⟩
          · apply progressMono_cons
            · apply progressMono_of_const step.progress
              intro d hd
              rw [(hfacts d hd).2, update_stage_progress]
            · intro d hd
              rw [hsnap_prog, (hfacts d hd).2, update_stage_progress]
          · intro d hd
            simp at hd
            rcases hd with hd | hd
            · subst hd
              rw [hsnap_prog]
              exact hle
            · rw [(hfacts d hd).2, update_stage_progress]
              exact hle
          · simp only [List.all_cons, Bool.and_eq_true]
            refine ⟨hsnap_check, ?_⟩
            rw [List.all_eq_true]
            intro d hd
            simp [(hfacts d hd).1]
      | ok es =>
          cases hw : wait_outcome step.timeout (step_duration env step.stage)
              (step_result env step.stage) with
          | timeoutError =>
              simp only [runSteps, hg, hw]
              have hfacts := stepFault_history_facts env request_id
                ("Timeout in step " ++ step.stage.value)
                (status.update_stage step.stage step.progress step.description now)
                (now + wait_elapsed step.timeout (step_duration env step.stage))
              refine ⟨?_, ?_, ?_⟩
              · apply progressMono_cons
                · apply progressMono_of_const step.progress
                  intro d hd
                  rw [(hfacts d hd).2, update_stage_progress]
                · intro d hd
                  rw [hsnap_prog, (hfacts d hd).2, update_stage_progress]
              · intro d hd
                simp at hd
                rcases hd with hd | hd
                · subst hd
                  rw [hsnap_prog]
                  exact hle
                · rw [(hfacts d hd).2, update_stage_progress]
                  exact hle
              · simp only [List.all_cons, Bool.and_eq_true]
                refine ⟨hsnap_check, ?_⟩
                rw [List.all_eq_true]
                intro d hd
                simp [(hfacts d hd).1]
          | exc e =>
              simp only [runSteps, hg, hw]
              have hfacts := stepFault_history_facts env request_id
                ("Error in step " ++ step.stage.value ++ ": " ++ e)
                (status.update_stage step.stage step.progress step.description now)
                (now + wait_elapsed step.timeout (step_duration env step.stage))
              refine ⟨?_, ?_, ?_⟩
              · apply progressMono_cons
                · apply progressMono_of_const step.progress
                  intro d hd
                  rw [(hfacts d hd).2, update_stage_progress]
                · intro d hd
                  rw [hsnap_prog, (hfacts d hd).2, update_stage_progress]
              · intro d hd
                simp at hd
                rcases hd with hd | hd
                · subst hd
                  rw [hsnap_prog]
                  exact hle
                · rw [(hfacts d hd).2, update_stage_progress]
                  exact hle
              · simp only [List.all_cons, Bool.and_eq_true]
                refine ⟨hsnap_check, ?_⟩
                rw [List.all_eq_true]
                intro d hd
                simp [(hfacts d hd).1]
          | ok result =>
              simp only [runSteps, hg, hw]
              have hprog2 :
                  ({ status.update_stage step.stage step.progress step.description
                      now with
                     stage_results := dictSet (status.update_stage step.stage
                       step.progress step.description now).stage_results
                       step.stage.value result } : WorkflowStatus).progress
                    = step.progress := by
                simp [update_stage_progress]
              have hrec := ih ({ status.update_stage step.stage step.progress
                  step.description now with
                  stage_results := dictSet (status.update_stage step.stage
                    step.progress step.description now).stage_results
                    step.stage.value result })
                (_update_workflow_data step.stage result wd)
                (now + wait_elapsed step.timeout (step_duration env step.stage))
                (by rw [hprog2]; exact hstep.2.2)
                (by rw [hprog2]; exact hchain2)
                (fun s hs => hsteps s (by simp [hs]))
              refine ⟨?_, ?_, ?_⟩
              · apply progressMono_cons
                · exact hrec.1
                · intro d hd
                  rw [hsnap_prog]
                  have := hrec.2.1 d hd
                  rw [hprog2] at this
                  exact this
              · intro d hd
                simp at hd
                rcases hd with hd | hd
                · subst hd
                  rw [hsnap_prog]
                  exact hle
                · have := hrec.2.1 d hd
                  rw [hprog2] at this
                  exact le_trans hle this
              · simp only [List.all_cons, Bool.and_eq_true]
                refine ⟨hsnap_check, ?_⟩
                exact hrec.2.2

/-- C3 counterexample: on the run in which every collaborator succeeds
but persisting the final report raises, the workflow fails after the
COMPLETED transition; the final FAILED snapshot keeps progress 100, so
"progress equals 100 iff currentStage is COMPLETED" is violated. -/
theorem progress_100_failed_run :
    claimProgressInvariant
      (process_pft_request envReportFault "req" "fc" "csv" [] [] "routine" 0)
      = false := by
  decide

/-- C3 amended: on every run, progress is non-decreasing across
successive transition snapshots (`set_error` keeps the progress reached,
so this also holds into FAILED), and every snapshot that is not FAILED
has progress 100 exactly when its stage is COMPLETED.  A run that fails
after the COMPLETED transition (e.g. while persisting the final report)
leaves a FAILED snapshot that retains progress 100. -/
theorem progress_monotone_and_100_iff_completed (env : Env)
    (request_id file_content file_type priority : String)
    (patient_demographics : Payload) (historical_data : List Payload)
    (t0 : Nat) :
    progressMono ((process_pft_request env request_id file_content file_type
      patient_demographics historical_data priority t0).history) = true ∧
    ((process_pft_request env request_id file_content file_type
      patient_demographics historical_data priority t0).history.all fun d =>
        decide (d.stage = "failed") ||
          (decide (d.progress = 100) == decide (d.stage = "completed")))
      = true := by
  have h := runSteps_progress env request_id workflow_steps
    (WorkflowStatus.init request_id t0)
    { request_id := request_id
      file_content := file_content
      file_type := file_type
      patient_demographics := patient_demographics
      historical_data := historical_data
      priority := priority
      extracted_data := []
      interpretation := []
      triage_assessment := []
      report_data := []
      quality_assessment := [] }
    t0
    (by simp [WorkflowStatus.init])
    (by simp [WorkflowStatus.init, stepsChain, workflow_steps])
    (by decide)
  exact ⟨h.1, h.2.2⟩

/-- C4 counterexample: on the run in which the first stage's
collaborator times out (healthy gateway throughout), the transition to
FAILED is persisted but never published, so "every status transition is
both published and persisted" fails. -/
theorem failed_transition_not_published :
    everyTransitionPublishedPersisted "req"
      (process_pft_request envTimeoutStage1 "req" "fc" "csv" [] [] "routine" 0)
      = false := by
  decide

/-- C4 amended: when the broadcast channel and the durable store
themselves never raise, every status transition (including the
transition to FAILED on a stage timeout or collaborator error) is
persisted by overwriting the record keyed by the request id, and every
transition to a non-FAILED status is also published to the broadcast
channel; transitions to FAILED are persisted but not published. -/
theorem transitions_persisted_published (env : Env)
    (request_id file_content file_type priority : String)
    (patient_demographics : Payload) (historical_data : List Payload)
    (t0 : Nat)
    (hpub : ∀ topic d, env.publish topic d = none)
    (hper : ∀ key d, env.persistStatus key d = none) :
    ∀ d ∈ (process_pft_request env request_id file_content file_type
        patient_demographics historical_data priority t0).history,
      (process_pft_request env request_id file_content file_type
        patient_demographics historical_data priority t0).trace.any
        (isPersistOf request_id d) = true ∧
      (d.stage ≠ "failed" →
        (process_pft_request env request_id file_content file_type
          patient_demographics historical_data priority t0).trace.any
          (isPublishOf request_id d) = true) :=
  runSteps_transitions_gateway env request_id hpub hper workflow_steps _ _ t0

/-- The first transition snapshot of a healthy run admitted at time 0. -/
def firstSnap : StatusDict :=
  { request_id := "req"
    stage := "data_extraction"
    progress := 20
    current_step := "Extracting and standardizing PFT data"
    started_at := 0
    completed_at := none
    processing_time := 0
    error_message := none }

/-- Witness for the amended C4 on a concrete healthy run and its first
transition snapshot. -/
theorem transitions_persisted_published_witness :
    (process_pft_request envAllOK "req" "fc" "csv" [] [] "routine" 0).trace.any
      (isPersistOf "req" firstSnap) = true ∧
    (firstSnap.stage ≠ "failed" →
      (process_pft_request envAllOK "req" "fc" "csv" [] [] "routine" 0).trace.any
        (isPublishOf "req" firstSnap) = true) :=
  transitions_persisted_published envAllOK "req" "fc" "csv" "routine" [] [] 0
    (fun _ _ => rfl) (fun _ _ => rfl) firstSnap (by decide)

/-! ### C2: second-stage timeout -/

/-- C2: with the registry timeouts [60,90,60,120,30], if the first
stage's collaborator answers within its bound but the second stage's
collaborator outlives its 90-second bounded wait (gateway healthy, no
callback), the run returns a failure envelope: status "failed", error
message naming the interpretation stage, stage results and
partial_results holding exactly the data_extraction entry, and the
collaborators of stages 3–5 are never invoked. -/
theorem second_stage_timeout_aborts (env : Env)
    (request_id file_content file_type priority : String)
    (patient_demographics : Payload) (historical_data : List Payload)
    (t0 : Nat) (p1 : Payload)
    (hpub : ∀ topic d, env.publish topic d = none)
    (hper : ∀ key d, env.persistStatus key d = none)
    (hcb : env.callback = none)
    (hd1 : env.duration .data_extraction ≤ 60)
    (hr1 : env.result .data_extraction = .ok p1)
    (hd2 : env.duration .interpretation > 90) :
    workflow_steps.map (fun step => step.timeout) = [60, 90, 60, 120, 30] ∧
    (process_pft_request env request_id file_content file_type
      patient_demographics historical_data priority t0).outcome.envelopeStatus
      = some "failed" ∧
    (process_pft_request env request_id file_content file_type
      patient_demographics historical_data priority t0).outcome.errorMessage
      = some "Timeout in step interpretation" ∧
    (process_pft_request env request_id file_content file_type
      patient_demographics historical_data priority t0).outcome.stageOf
      = some "failed" ∧
    (process_pft_request env request_id file_content file_type
      patient_demographics historical_data priority t0).outcome.partialResults
      = some [("data_extraction", p1)] ∧
    (process_pft_request env request_id file_content file_type
      patient_demographics historical_data priority t0).status.stage_results
      = [("data_extraction", p1)] ∧
    (process_pft_request env request_id file_content file_type
      patient_demographics historical_data priority t0).trace.any
      (isInvokeOf .triage_assessment) = false ∧
    (process_pft_request env request_id file_content file_type
      patient_demographics historical_data priority t0).trace.any
      (isInvokeOf .report_generation) = false ∧
    (process_pft_request env request_id file_content file_type
      patient_demographics historical_data priority t0).trace.any
      (isInvokeOf .quality_validation) = false := by
  have h1 : ¬ step_duration env ProcessingStage.data_extraction > 60 := by
    simp only [step_duration]
    omega
  have h2 : step_duration env ProcessingStage.interpretation > 90 := by
    simpa only [step_duration] using hd2
  refine ⟨rfl, ?_⟩
  simp only [process_pft_request, workflow_steps, runSteps, stepGate, stepFault,
    hpub, hper, hcb, wait_outcome, wait_elapsed, step_result, hr1, h1, h2,
    if_true, if_false, ite_true, ite_false, dictSet]
  simp [RunOutcome.envelopeStatus, RunOutcome.errorMessage, RunOutcome.stageOf,
    RunOutcome.partialResults, _create_error_response, isInvokeOf,
    WorkflowStatus.update_stage, WorkflowStatus.set_error, WorkflowStatus.to_dict,
    ProcessingStage.value]

/-- Witness for C2: a concrete run in which the second stage's
collaborator takes 91 seconds. -/
theorem second_stage_timeout_aborts_witness :
    workflow_steps.map (fun step => step.timeout) = [60, 90, 60, 120, 30] ∧
    (process_pft_request envTimeoutStage2 "req" "fc" "csv" [] [] "routine"
      0).outcome.envelopeStatus = some "failed" ∧
    (process_pft_request envTimeoutStage2 "req" "fc" "csv" [] [] "routine"
      0).outcome.errorMessage = some "Timeout in step interpretation" ∧
    (process_pft_request envTimeoutStage2 "req" "fc" "csv" [] [] "routine"
      0).outcome.stageOf = some "failed" ∧
    (process_pft_request envTimeoutStage2 "req" "fc" "csv" [] [] "routine"
      0).outcome.partialResults
      = some [("data_extraction", [("result", "data_extraction")])] ∧
    (process_pft_request envTimeoutStage2 "req" "fc" "csv" [] [] "routine"
      0).status.stage_results
      = [("data_extraction", [("result", "data_extraction")])] ∧
    (process_pft_request envTimeoutStage2 "req" "fc" "csv" [] [] "routine"
      0).trace.any (isInvokeOf .triage_assessment) = false ∧
    (process_pft_request envTimeoutStage2 "req" "fc" "csv" [] [] "routine"
      0).trace.any (isInvokeOf .report_generation) = false ∧
    (process_pft_request envTimeoutStage2 "req" "fc" "csv" [] [] "routine"
      0).trace.any (isInvokeOf .quality_validation) = false :=
  second_stage_timeout_aborts envTimeoutStage2 "req" "fc" "csv" "routine"
    [] [] 0 [("result", "data_extraction")]
    (fun _ _ => rfl) (fun _ _ => rfl) rfl (by decide) rfl (by decide)

/-! ### C5: third-stage error preserves earlier results -/

/-- C5: if the first two stages succeed within their bounds and the
third stage's collaborator raises an arbitrary error (gateway healthy,
no callback), the run fails with a message naming triage_assessment,
stage results hold exactly the data_extraction and interpretation
entries in order, and the failure envelope's partial_results equals
exactly those two entries; stages 4–5 are never invoked. -/
theorem third_stage_error_preserves_results (env : Env)
    (request_id file_content file_type priority : String)
    (patient_demographics : Payload) (historical_data : List Payload)
    (t0 : Nat) (p1 p2 : Payload) (m : String)
    (hpub : ∀ topic d, env.publish topic d = none)
    (hper : ∀ key d, env.persistStatus key d = none)
    (hcb : env.callback = none)
    (hd1 : env.duration .data_extraction ≤ 60)
    (hr1 : env.result .data_extraction = .ok p1)
    (hd2 : env.duration .interpretation ≤ 90)
    (hr2 : env.result .interpretation = .ok p2)
    (hd3 : env.duration .triage_assessment ≤ 60)
    (hr3 : env.result .triage_assessment = .error m) :
    (process_pft_request env request_id file_content file_type
      patient_demographics historical_data priority t0).outcome.envelopeStatus
      = some "failed" ∧
    (process_pft_request env request_id file_content file_type
      patient_demographics historical_data priority t0).outcome.errorMessage
      = some ("Error in step triage_assessment: " ++ m) ∧
    (process_pft_request env request_id file_content file_type
      patient_demographics historical_data priority t0).status.stage_results
      = [("data_extraction", p1), ("interpretation", p2)] ∧
    (process_pft_request env request_id file_content file_type
      patient_demographics historical_data priority t0).outcome.partialResults
      = some [("data_extraction", p1), ("interpretation", p2)] ∧
    (process_pft_request env request_id file_content file_type
      patient_demographics historical_data priority t0).trace.any
      (isInvokeOf .report_generation) = false ∧
    (process_pft_request env request_id file_content file_type
      patient_demographics historical_data priority t0).trace.any
      (isInvokeOf .quality_validation) = false := by
  have h1 : ¬ step_duration env ProcessingStage.data_extraction > 60 := by
    simp only [step_duration]
    omega
  have h2 : ¬ step_duration env ProcessingStage.interpretation > 90 := by
    simp only [step_duration]
    omega
  have h3 : ¬ step_duration env ProcessingStage.triage_assessment > 60 := by
    simp only [step_duration]
    omega
  simp only [process_pft_request, workflow_steps, runSteps, stepGate, stepFault,
    hpub, hper, hcb, wait_outcome, wait_elapsed, step_result, hr1, hr2, hr3,
    h1, h2, h3, if_true, if_false, ite_true, ite_false, dictSet]
  simp [RunOutcome.envelopeStatus, RunOutcome.errorMessage, RunOutcome.stageOf,
    RunOutcome.partialResults, _create_error_response, isInvokeOf,
    WorkflowStatus.update_stage, WorkflowStatus.set_error, WorkflowStatus.to_dict,
    ProcessingStage.value]

/-- Witness for C5: a concrete run whose third-stage collaborator
raises "boom". -/
theorem third_stage_error_preserves_results_witness :
    (process_pft_request envErrStage3 "req" "fc" "csv" [] [] "routine"
      0).outcome.envelopeStatus = some "failed" ∧
    (process_pft_request envErrStage3 "req" "fc" "csv" [] [] "routine"
      0).outcome.errorMessage
      = some ("Error in step triage_assessment: " ++ "boom") ∧
    (process_pft_request envErrStage3 "req" "fc" "csv" [] [] "routine"
      0).status.stage_results
      = [("data_extraction", [("result", "data_extraction")]),
         ("interpretation", [("result", "interpretation")])] ∧
    (process_pft_request envErrStage3 "req" "fc" "csv" [] [] "routine"
      0).outcome.partialResults
      = some [("data_extraction", [("result", "data_extraction")]),
              ("interpretation", [("result", "interpretation")])] ∧
    (process_pft_request envErrStage3 "req" "fc" "csv" [] [] "routine"
      0).trace.any (isInvokeOf .report_generation) = false ∧
    (process_pft_request envErrStage3 "req" "fc" "csv" [] [] "routine"
      0).trace.any (isInvokeOf .quality_validation) = false :=
  third_stage_error_preserves_results envErrStage3 "req" "fc" "csv" "routine"
    [] [] 0 [("result", "data_extraction")] [("result", "interpretation")] "boom"
    (fun _ _ => rfl) (fun _ _ => rfl) rfl
    (by decide) rfl (by decide) rfl (by decide) rfl

/-! ### C8: five successes complete the run -/

/-- C8: when all five collaborators return payloads within their
timeouts (gateway healthy, no callback, report persist healthy), the
run returns a success envelope with status "completed", final progress
100, and report metadata listing all five stage names in registry
order. -/
theorem all_stages_success_completes (env : Env)
    (request_id file_content file_type priority : String)
    (patient_demographics : Payload) (historical_data : List Payload)
    (t0 : Nat) (p1 p2 p3 p4 p5 : Payload)
    (hpub : ∀ topic d, env.publish topic d = none)
    (hper : ∀ key d, env.persistStatus key d = none)
    (hcb : env.callback = none)
    (hrep : ∀ key rep, env.persistReport key rep = none)
    (hd1 : env.duration .data_extraction ≤ 60)
    (hr1 : env.result .data_extraction = .ok p1)
    (hd2 : env.duration .interpretation ≤ 90)
    (hr2 : env.result .interpretation = .ok p2)
    (hd3 : env.duration .triage_assessment ≤ 60)
    (hr3 : env.result .triage_assessment = .ok p3)
    (hd4 : env.duration .report_generation ≤ 120)
    (hr4 : env.result .report_generation = .ok p4)
    (hd5 : env.duration .quality_validation ≤ 30)
    (hr5 : env.result .quality_validation = .ok p5) :
    (process_pft_request env request_id file_content file_type
      patient_demographics historical_data priority t0).outcome.envelopeStatus
      = some "completed" ∧
    (process_pft_request env request_id file_content file_type
      patient_demographics historical_data priority t0).outcome.progressOf
      = some 100 ∧
    (process_pft_request env request_id file_content file_type
      patient_demographics historical_data priority t0).outcome.stageOf
      = some "completed" ∧
    (process_pft_request env request_id file_content file_type
      patient_demographics historical_data priority t0).outcome.agentsUsed
      = some ["data_extraction", "interpretation", "triage_assessment",
              "report_generation", "quality_validation"] ∧
    (process_pft_request env request_id file_content file_type
      patient_demographics historical_data priority t0).status.stage = .completed ∧
    (process_pft_request env request_id file_content file_type
      patient_demographics historical_data priority t0).status.progress = 100 := by
  have h1 : ¬ step_duration env ProcessingStage.data_extraction > 60 := by
    simp only [step_duration]
    omega
  have h2 : ¬ step_duration env ProcessingStage.interpretation > 90 := by
    simp only [step_duration]
    omega
  have h3 : ¬ step_duration env ProcessingStage.triage_assessment > 60 := by
    simp only [step_duration]
    omega
  have h4 : ¬ step_duration env ProcessingStage.report_generation > 120 := by
    simp only [step_duration]
    omega
  have h5 : ¬ step_duration env ProcessingStage.quality_validation > 30 := by
    simp only [step_duration]
    omega
  simp only [process_pft_request, workflow_steps, runSteps, finishRun, stepGate,
    hpub, hper, hcb, hrep, wait_outcome, wait_elapsed, step_result,
    hr1, hr2, hr3, hr4, hr5, h1, h2, h3, h4, h5,
    if_true, if_false, ite_true, ite_false, dictSet]
  simp [RunOutcome.envelopeStatus, RunOutcome.progressOf, RunOutcome.stageOf,
    RunOutcome.agentsUsed, _create_final_result, workflow_steps,
    WorkflowStatus.update_stage, WorkflowStatus.to_dict, ProcessingStage.value]

/-- Witness for C8: the all-healthy concrete run. -/
theorem all_stages_success_completes_witness :
    (process_pft_request envAllOK "req" "fc" "csv" [] [] "routine"
      0).outcome.envelopeStatus = some "completed" ∧
    (process_pft_request envAllOK "req" "fc" "csv" [] [] "routine"
      0).outcome.progressOf = some 100 ∧
    (process_pft_request envAllOK "req" "fc" "csv" [] [] "routine"
      0).outcome.stageOf = some "completed" ∧
    (process_pft_request envAllOK "req" "fc" "csv" [] [] "routine"
      0).outcome.agentsUsed
      = some ["data_extraction", "interpretation", "triage_assessment",
              "report_generation", "quality_validation"] ∧
    (process_pft_request envAllOK "req" "fc" "csv" [] [] "routine"
      0).status.stage = .completed ∧
    (process_pft_request envAllOK "req" "fc" "csv" [] [] "routine"
      0).status.progress = 100 :=
  all_stages_success_completes envAllOK "req" "fc" "csv" "routine" [] [] 0
    [("result", "data_extraction")] [("result", "interpretation")]
    [("result", "triage_assessment")] [("result", "report_generation")]
    [("result", "quality_validation")]
    (fun _ _ => rfl) (fun _ _ => rfl) rfl (fun _ _ => rfl)
    (by decide) rfl (by decide) rfl (by decide) rfl (by decide) rfl (by decide) rfl

/-! ### C10: gateway errors abort the stage before its invocation -/

/-- C10: if, during a stage's transition, the publish, the persist or
the optional progress callback raises (before the collaborator is
invoked) and the subsequent persist of the error status succeeds, then
the workflow aborts: the returned envelope is a failure whose message
names that stage, the final status is FAILED, and no collaborator is
invoked from that point on — gateway errors are not swallowed. -/
theorem gateway_fault_aborts (env : Env) (request_id : String)
    (step : WorkflowStep) (rest : List WorkflowStep) (status : WorkflowStatus)
    (workflow_data : WorkflowContext) (now : Nat) (m : String)
    (status1 : WorkflowStatus)
    (h1 : status1 = status.update_stage step.stage step.progress
      step.description now)
    (hfail :
      env.publish ("pft:progress:" ++ request_id) status1.to_dict = some m ∨
      (env.publish ("pft:progress:" ++ request_id) status1.to_dict = none ∧
        env.persistStatus ("pft:processing:" ++ request_id) status1.to_dict
          = some m) ∨
      (env.publish ("pft:progress:" ++ request_id) status1.to_dict = none ∧
        env.persistStatus ("pft:processing:" ++ request_id) status1.to_dict
          = none ∧
        ∃ cb, env.callback = some cb ∧ cb status1.to_dict = some m))
    (herr : env.persistStatus ("pft:processing:" ++ request_id)
      ((status1.set_error ("Error in step " ++ step.stage.value ++ ": " ++ m)
        now).to_dict) = none) :
    (runSteps env request_id (step :: rest) status workflow_data
      now).outcome.envelopeStatus = some "failed" ∧
    (runSteps env request_id (step :: rest) status workflow_data
      now).outcome.errorMessage
      = some ("Error in step " ++ step.stage.value ++ ": " ++ m) ∧
    (runSteps env request_id (step :: rest) status workflow_data
      now).status.stage = .failed ∧
    (runSteps env request_id (step :: rest) status workflow_data
      now).trace.any Event.isInvoke = false := by
  subst h1
  rcases hfail with hf | ⟨hf1, hf2⟩ | ⟨hf1, hf2, cb, hcb, hcbf⟩
  · simp only [runSteps, stepGate, stepFault, hf, herr]
    simp [RunOutcome.envelopeStatus, RunOutcome.errorMessage,
      _create_error_response, Event.isInvoke, WorkflowStatus.set_error,
      WorkflowStatus.to_dict]
  · simp only [runSteps, stepGate, stepFault, hf1, hf2, herr]
    simp [RunOutcome.envelopeStatus, RunOutcome.errorMessage,
      _create_error_response, Event.isInvoke, WorkflowStatus.set_error,
      WorkflowStatus.to_dict]
  · simp only [runSteps, stepGate, stepFault, hf1, hf2, hcb, hcbf, herr]
    simp [RunOutcome.envelopeStatus, RunOutcome.errorMessage,
      _create_error_response, Event.isInvoke, WorkflowStatus.set_error,
      WorkflowStatus.to_dict]

/-- The first registry entry, used to witness C10. -/
def step1 : WorkflowStep :=
  { stage := .data_extraction
    progress := 20
    description := "Extracting and standardizing PFT data"
    timeout := 60 }

/-- Witness for C10: the broadcast channel raises on the very first
stage transition of a concrete run. -/
theorem gateway_fault_aborts_witness :
    (runSteps envPublishFault "req" [step1] (WorkflowStatus.init "req" 0)
      sampleContext 0).outcome.envelopeStatus = some "failed" ∧
    (runSteps envPublishFault "req" [step1] (WorkflowStatus.init "req" 0)
      sampleContext 0).outcome.errorMessage
      = some ("Error in step " ++ step1.stage.value ++ ": " ++ "channel down") ∧
    (runSteps envPublishFault "req" [step1] (WorkflowStatus.init "req" 0)
      sampleContext 0).status.stage = .failed ∧
    (runSteps envPublishFault "req" [step1] (WorkflowStatus.init "req" 0)
      sampleContext 0).trace.any Event.isInvoke = false :=
  gateway_fault_aborts envPublishFault "req" step1 [] (WorkflowStatus.init "req" 0)
    sampleContext 0 "channel down"
    ((WorkflowStatus.init "req" 0).update_stage step1.stage step1.progress
      step1.description 0)
    rfl (Or.inl rfl) rfl

end AutoPFT
